import Mathlib

/-!
Shallow embedding of `src/main.cpp` of the VulkanPrintf repository, together
with theorems settling the specification claims about it.

The program is a headless Vulkan compute-dispatch harness.  Driver calls are
modelled by explicit outcome environments (each privileged call's `VkResult`
is an input), and the sequence of driver calls a run performs is recorded as
an explicit event trace, so that ordering and cleanup properties can be
stated and proved.
-/

namespace VulkanPrintf

/-- Result codes of the Vulkan calls this program makes or checks.
`VK_ERROR_OTHER` stands for any further error code a driver may return. -/
inductive VkResult where
  | VK_SUCCESS
  | VK_ERROR_INITIALIZATION_FAILED
  | VK_ERROR_EXTENSION_NOT_PRESENT
  | VK_ERROR_UNKNOWN
  | VK_ERROR_OUT_OF_DEVICE_MEMORY
  | VK_ERROR_OTHER (code : Int)
deriving DecidableEq, Repr

/-- `VK_FALSE`, the "message not handled" return value of a debug callback. -/
def VK_FALSE : Bool := false

/-! ## Queue family flags and `GetBestComputeQueue` (main.cpp lines 362-402) -/

def VK_QUEUE_GRAPHICS_BIT : Nat := 1

def VK_QUEUE_COMPUTE_BIT : Nat := 2

def VK_QUEUE_TRANSFER_BIT : Nat := 4

def VK_QUEUE_SPARSE_BINDING_BIT : Nat := 8

/-- `~(VK_QUEUE_TRANSFER_BIT | VK_QUEUE_SPARSE_BINDING_BIT) & queueFlags`,
the 32-bit complement-and-mask computed in both loops of
`GetBestComputeQueue`.  `VkQueueFlags` is a 32-bit value. -/
def maskedQueueFlags (queueFlags : Nat) : Nat :=
  (4294967295 ^^^ (VK_QUEUE_TRANSFER_BIT ||| VK_QUEUE_SPARSE_BINDING_BIT)) &&& queueFlags

/-- Condition of the first loop of `GetBestComputeQueue`:
`!(VK_QUEUE_GRAPHICS_BIT & maskedFlags) && (VK_QUEUE_COMPUTE_BIT & maskedFlags)`. -/
def tier1Match (queueFlags : Nat) : Bool :=
  (VK_QUEUE_GRAPHICS_BIT &&& maskedQueueFlags queueFlags == 0) &&
    (VK_QUEUE_COMPUTE_BIT &&& maskedQueueFlags queueFlags != 0)

/-- Condition of the second loop of `GetBestComputeQueue`:
`VK_QUEUE_COMPUTE_BIT & maskedFlags`. -/
def tier2Match (queueFlags : Nat) : Bool :=
  VK_QUEUE_COMPUTE_BIT &&& maskedQueueFlags queueFlags != 0

/-- A `for (uint32_t i = 0; ...)` scan returning the index of the first
element satisfying `p`, as performed by both loops of `GetBestComputeQueue`. -/
def findFirstIdx (p : Nat → Bool) : List Nat → Option Nat
  | [] => none
  | f :: rest => if p f then some 0 else (findFirstIdx p rest).map (· + 1)

/-- `GetBestComputeQueue` (main.cpp lines 362-402): a physical device is
represented by the list of its queue families' `queueFlags`, in enumeration
order.  The first loop looks for a family with COMPUTE and without GRAPHICS
(after masking out TRANSFER and SPARSE_BINDING); the second loop accepts any
family with COMPUTE; otherwise `VK_ERROR_INITIALIZATION_FAILED`. -/
def GetBestComputeQueue (families : List Nat) : Except VkResult Nat :=
  match findFirstIdx tier1Match families with
  | some i => Except.ok i
  | none =>
    match findFirstIdx tier2Match families with
    | some i => Except.ok i
    | none => Except.error VkResult.VK_ERROR_INITIALIZATION_FAILED

/-! ## Diagnostic callbacks (main.cpp lines 43-141) -/

def VK_DEBUG_UTILS_MESSAGE_TYPE_GENERAL_BIT_EXT : Nat := 1

def VK_DEBUG_UTILS_MESSAGE_TYPE_VALIDATION_BIT_EXT : Nat := 2

def VK_DEBUG_UTILS_MESSAGE_TYPE_PERFORMANCE_BIT_EXT : Nat := 4

def VK_DEBUG_UTILS_MESSAGE_SEVERITY_VERBOSE_BIT_EXT : Nat := 1

def VK_DEBUG_UTILS_MESSAGE_SEVERITY_INFO_BIT_EXT : Nat := 16

def VK_DEBUG_UTILS_MESSAGE_SEVERITY_WARNING_BIT_EXT : Nat := 256

def VK_DEBUG_UTILS_MESSAGE_SEVERITY_ERROR_BIT_EXT : Nat := 4096

def VK_DEBUG_REPORT_INFORMATION_BIT_EXT : Nat := 1

/-- The `switch (messageSeverity)` of `VulkanDebugCallback`, producing the
severity tag written to the log line. -/
def severityTag (messageSeverity : Nat) : String :=
  if messageSeverity = VK_DEBUG_UTILS_MESSAGE_SEVERITY_VERBOSE_BIT_EXT then "[VERBOSE]"
  else if messageSeverity = VK_DEBUG_UTILS_MESSAGE_SEVERITY_INFO_BIT_EXT then "[INFO]   "
  else if messageSeverity = VK_DEBUG_UTILS_MESSAGE_SEVERITY_WARNING_BIT_EXT then "[WARNING]"
  else if messageSeverity = VK_DEBUG_UTILS_MESSAGE_SEVERITY_ERROR_BIT_EXT then "[ERROR]  "
  else "[UNKNOWN]"

/-- `VulkanDebugCallback` (main.cpp lines 43-98).  The compile-time macro
`SHOW_ONLY_DEBUG_PRINTF_EXT_MESSAGES` is the first argument (`true` is the
filtered mode shipped in the source).  Returns the log line written to
standard output, if any, and the `VkBool32` return value. -/
def VulkanDebugCallback (showOnlyDebugPrintfExtMessages : Bool)
    (messageSeverity messageType : Nat) (pMessage : String) : Option String × Bool :=
  if showOnlyDebugPrintfExtMessages ∧
      messageType ≠ VK_DEBUG_UTILS_MESSAGE_TYPE_VALIDATION_BIT_EXT then
    (none, VK_FALSE)
  else
    (some ("[VULKAN DEBUG] : " ++ severityTag messageSeverity ++ " : [FLAGS]: " ++
      toString messageType ++ "\t" ++ pMessage), VK_FALSE)

/-- Character-list prefix test: does `p` match the front of `s`?  Used to
model `std::string::find`. -/
def matchesAt : List Char → List Char → Bool
  | [], _ => true
  | _ :: _, [] => false
  | p :: ps, c :: cs => if p = c then matchesAt ps cs else false

/-- `std::string::find(pat) != std::string::npos`: `pat` occurs as a
contiguous substring of `s`. -/
def containsSubstring (pat : List Char) : List Char → Bool
  | [] => matchesAt pat []
  | c :: rest => if matchesAt pat (c :: rest) then true else containsSubstring pat rest

/-- The `prefix.find("Validation") != npos` test of `VulkanReportCallback`. -/
def messageContainsValidation (pMessage : String) : Bool :=
  containsSubstring "Validation".data pMessage.data

/-- `VulkanReportCallback` (main.cpp lines 108-141), modelled like
`VulkanDebugCallback`: log line (if any) and the `VkBool32` return value. -/
def VulkanReportCallback (showOnlyDebugPrintfExtMessages : Bool) (flags : Nat)
    (pLayerPrefix pMessage : String) : Option String × Bool :=
  if showOnlyDebugPrintfExtMessages ∧ flags ≠ VK_DEBUG_REPORT_INFORMATION_BIT_EXT then
    (none, VK_FALSE)
  else if showOnlyDebugPrintfExtMessages ∧ messageContainsValidation pMessage = false then
    (none, VK_FALSE)
  else
    (some ("[VULKAN REPORT]: [FLAGS]: " ++ toString flags ++ " [LAYER]: " ++
      pLayerPrefix ++ " [MESSAGE]: " ++ pMessage), VK_FALSE)

/-! ## Capability verification (main.cpp lines 161-230) -/

/-- The required instance layer list (main.cpp lines 23-25). -/
def requiredInstanceLayers : List String :=
  ["VK_LAYER_KHRONOS_validation"]

/-- The required instance extension list (main.cpp lines 30-33). -/
def requiredInstanceExtensions : List String :=
  ["VK_EXT_debug_utils", "VK_EXT_debug_report"]

/-- The inner loop of the two verification functions: scan the available
names for a `strcmp`-equal match. -/
def nameFoundIn (name : String) : List String → Bool
  | [] => false
  | avail :: rest => if avail = name then true else nameFoundIn name rest

/-- The outer loop of the two verification functions: every requested name
must be found among the available names. -/
def allNamesFound (available : List String) : List String → Bool
  | [] => true
  | name :: rest => if nameFoundIn name available then allNamesFound available rest else false

/-- `VerifyInstanceLayers` (main.cpp lines 161-194), generalised over the
requested list (the source fixes it to `requiredInstanceLayers`) and the
driver-enumerated available list. -/
def VerifyInstanceLayers (requested available : List String) : Bool :=
  if requested.length = 0 then true
  else allNamesFound available requested

/-- `VerifyInstanceExtensions` (main.cpp lines 197-230), generalised the same
way. -/
def VerifyInstanceExtensions (requested available : List String) : Bool :=
  if requested.length = 0 then true
  else allNamesFound available requested

/-! ## `RunComputeShader` (main.cpp lines 424-534) as a trace semantics -/

/-- `shader_local_size_x` (main.cpp line 20): must match the thread sizes
declared in the GLSL and HLSL shaders. -/
def shader_local_size_x : Nat := 512

/-- The driver calls `RunComputeShader` can make, with the arguments the
claims are about. -/
inductive VkCall where
  | createShaderModule (codeSize : Nat) (code : List Nat)
  | createPipelineLayout
  | createComputePipelines
  | createCommandPool
  | allocateCommandBuffers
  | beginCommandBuffer
  | cmdBindPipeline
  | cmdDispatch (x y z : Nat)
  | endCommandBuffer
  | getDeviceQueue
  | queueSubmit
  | queueWaitIdle
  | freeCommandBuffers
  | destroyCommandPool
  | destroyPipeline
  | destroyPipelineLayout
  | destroyShaderModule
deriving DecidableEq, Repr

/-- The driver's outcome for each fallible call of one `RunComputeShader`
run.  The driver is an external collaborator, so these results are inputs of
the model. -/
structure DriverOutcomes where
  createShaderModule : VkResult
  createPipelineLayout : VkResult
  createComputePipelines : VkResult
  createCommandPool : VkResult
  allocateCommandBuffers : VkResult
  beginCommandBuffer : VkResult
  endCommandBuffer : VkResult
  queueSubmit : VkResult
  queueWaitIdle : VkResult
deriving DecidableEq, Repr

/-- All driver calls succeed. -/
def allSuccess : DriverOutcomes :=
  ⟨VkResult.VK_SUCCESS, VkResult.VK_SUCCESS, VkResult.VK_SUCCESS,
   VkResult.VK_SUCCESS, VkResult.VK_SUCCESS, VkResult.VK_SUCCESS,
   VkResult.VK_SUCCESS, VkResult.VK_SUCCESS, VkResult.VK_SUCCESS⟩

/-- `RunComputeShader` (main.cpp lines 424-534).  Straight-line translation:
each fallible call is checked with `if (result != VK_SUCCESS) return result;`
immediately after it is made; the two command-recording calls and
`vkGetDeviceQueue` cannot fail; on full success the five teardown calls run
and the final `result` (the `vkQueueWaitIdle` result) is returned.  The
returned trace lists every driver call made, in order.  `codeSize` is set to
`shaderCode.size()`, the element count of the word vector. -/
def RunComputeShader (o : DriverOutcomes) (shaderCode : List Nat) : VkResult × List VkCall :=
  if o.createShaderModule ≠ VkResult.VK_SUCCESS then
    (o.createShaderModule,
     [VkCall.createShaderModule shaderCode.length shaderCode])
  else if o.createPipelineLayout ≠ VkResult.VK_SUCCESS then
    (o.createPipelineLayout,
     [VkCall.createShaderModule shaderCode.length shaderCode,
      VkCall.createPipelineLayout])
  else if o.createComputePipelines ≠ VkResult.VK_SUCCESS then
    (o.createComputePipelines,
     [VkCall.createShaderModule shaderCode.length shaderCode,
      VkCall.createPipelineLayout, VkCall.createComputePipelines])
  else if o.createCommandPool ≠ VkResult.VK_SUCCESS then
    (o.createCommandPool,
     [VkCall.createShaderModule shaderCode.length shaderCode,
      VkCall.createPipelineLayout, VkCall.createComputePipelines,
      VkCall.createCommandPool])
  else if o.allocateCommandBuffers ≠ VkResult.VK_SUCCESS then
    (o.allocateCommandBuffers,
     [VkCall.createShaderModule shaderCode.length shaderCode,
      VkCall.createPipelineLayout, VkCall.createComputePipelines,
      VkCall.createCommandPool, VkCall.allocateCommandBuffers])
  else if o.beginCommandBuffer ≠ VkResult.VK_SUCCESS then
    (o.beginCommandBuffer,
     [VkCall.createShaderModule shaderCode.length shaderCode,
      VkCall.createPipelineLayout, VkCall.createComputePipelines,
      VkCall.createCommandPool, VkCall.allocateCommandBuffers,
      VkCall.beginCommandBuffer])
  else if o.endCommandBuffer ≠ VkResult.VK_SUCCESS then
    (o.endCommandBuffer,
     [VkCall.createShaderModule shaderCode.length shaderCode,
      VkCall.createPipelineLayout, VkCall.createComputePipelines,
      VkCall.createCommandPool, VkCall.allocateCommandBuffers,
      VkCall.beginCommandBuffer, VkCall.cmdBindPipeline,
      VkCall.cmdDispatch shader_local_size_x 1 1, VkCall.endCommandBuffer])
  else if o.queueSubmit ≠ VkResult.VK_SUCCESS then
    (o.queueSubmit,
     [VkCall.createShaderModule shaderCode.length shaderCode,
      VkCall.createPipelineLayout, VkCall.createComputePipelines,
      VkCall.createCommandPool, VkCall.allocateCommandBuffers,
      VkCall.beginCommandBuffer, VkCall.cmdBindPipeline,
      VkCall.cmdDispatch shader_local_size_x 1 1, VkCall.endCommandBuffer,
      VkCall.getDeviceQueue, VkCall.queueSubmit])
  else if o.queueWaitIdle ≠ VkResult.VK_SUCCESS then
    (o.queueWaitIdle,
     [VkCall.createShaderModule shaderCode.length shaderCode,
      VkCall.createPipelineLayout, VkCall.createComputePipelines,
      VkCall.createCommandPool, VkCall.allocateCommandBuffers,
      VkCall.beginCommandBuffer, VkCall.cmdBindPipeline,
      VkCall.cmdDispatch shader_local_size_x 1 1, VkCall.endCommandBuffer,
      VkCall.getDeviceQueue, VkCall.queueSubmit, VkCall.queueWaitIdle])
  else
    (o.queueWaitIdle,
     [VkCall.createShaderModule shaderCode.length shaderCode,
      VkCall.createPipelineLayout, VkCall.createComputePipelines,
      VkCall.createCommandPool, VkCall.allocateCommandBuffers,
      VkCall.beginCommandBuffer, VkCall.cmdBindPipeline,
      VkCall.cmdDispatch shader_local_size_x 1 1, VkCall.endCommandBuffer,
      VkCall.getDeviceQueue, VkCall.queueSubmit, VkCall.queueWaitIdle] ++
     [VkCall.freeCommandBuffers, VkCall.destroyCommandPool,
      VkCall.destroyPipeline, VkCall.destroyPipelineLayout,
      VkCall.destroyShaderModule])

/-- The first non-success result among the fallible calls of one run, in
program order. -/
def firstFailure (o : DriverOutcomes) : Option VkResult :=
  if o.createShaderModule ≠ VkResult.VK_SUCCESS then some o.createShaderModule else
  if o.createPipelineLayout ≠ VkResult.VK_SUCCESS then some o.createPipelineLayout else
  if o.createComputePipelines ≠ VkResult.VK_SUCCESS then some o.createComputePipelines else
  if o.createCommandPool ≠ VkResult.VK_SUCCESS then some o.createCommandPool else
  if o.allocateCommandBuffers ≠ VkResult.VK_SUCCESS then some o.allocateCommandBuffers else
  if o.beginCommandBuffer ≠ VkResult.VK_SUCCESS then some o.beginCommandBuffer else
  if o.endCommandBuffer ≠ VkResult.VK_SUCCESS then some o.endCommandBuffer else
  if o.queueSubmit ≠ VkResult.VK_SUCCESS then some o.queueSubmit else
  if o.queueWaitIdle ≠ VkResult.VK_SUCCESS then some o.queueWaitIdle else
  none

/-- Is this call one of the five teardown (destroy/free) calls? -/
def isTeardownCall : VkCall → Bool
  | VkCall.freeCommandBuffers => true
  | VkCall.destroyCommandPool => true
  | VkCall.destroyPipeline => true
  | VkCall.destroyPipelineLayout => true
  | VkCall.destroyShaderModule => true
  | _ => false

/-- The five resources `RunComputeShader` creates and releases. -/
inductive PipelineResource where
  | shaderModule
  | pipelineLayout
  | pipeline
  | commandPool
  | commandBuffer
deriving DecidableEq, Repr

/-- The resource a call creates, if any. -/
def createdResource : VkCall → Option PipelineResource
  | VkCall.createShaderModule _ _ => some PipelineResource.shaderModule
  | VkCall.createPipelineLayout => some PipelineResource.pipelineLayout
  | VkCall.createComputePipelines => some PipelineResource.pipeline
  | VkCall.createCommandPool => some PipelineResource.commandPool
  | VkCall.allocateCommandBuffers => some PipelineResource.commandBuffer
  | _ => none

/-- The resource a call releases, if any. -/
def releasedResource : VkCall → Option PipelineResource
  | VkCall.freeCommandBuffers => some PipelineResource.commandBuffer
  | VkCall.destroyCommandPool => some PipelineResource.commandPool
  | VkCall.destroyPipeline => some PipelineResource.pipeline
  | VkCall.destroyPipelineLayout => some PipelineResource.pipelineLayout
  | VkCall.destroyShaderModule => some PipelineResource.shaderModule
  | _ => none

/-- The documented teardown sequence. -/
def teardownSeq : List VkCall :=
  [VkCall.freeCommandBuffers, VkCall.destroyCommandPool, VkCall.destroyPipeline,
   VkCall.destroyPipelineLayout, VkCall.destroyShaderModule]

/-- Is this call a `vkCmdDispatch`? -/
def isDispatchCall : VkCall → Bool
  | VkCall.cmdDispatch _ _ _ => true
  | _ => false

/-- Is this call a `vkCmdBindPipeline`? -/
def isBindCall : VkCall → Bool
  | VkCall.cmdBindPipeline => true
  | _ => false

/-! ## `readFile` (main.cpp lines 144-158) -/

/-- Byte `j` of the storage the file's bytes are read into: the file's byte
for `j < fileSize`, and `0` beyond (the `std::vector<uint32_t>` storage is
value-initialised to zero and `file.read` writes only `fileSize` bytes). -/
def byteAtIdx (bytes : List Nat) (j : Nat) : Nat := bytes.getD j 0

/-- 32-bit word `i` of that storage, little-endian (x86 host). -/
def wordAtIdx (bytes : List Nat) (i : Nat) : Nat :=
  byteAtIdx bytes (4 * i) + 256 * byteAtIdx bytes (4 * i + 1) +
    65536 * byteAtIdx bytes (4 * i + 2) + 16777216 * byteAtIdx bytes (4 * i + 3)

/-- `readFile` (main.cpp lines 144-158) on a file that opens successfully,
as a function of the file's byte contents: `std::vector<uint32_t>
buffer(fileSize)` allocates `fileSize` *elements* (one 4-byte word per file
byte), and `file.read` then fills the first `fileSize` bytes of that
storage. -/
def readFile (bytes : List Nat) : List Nat :=
  (List.range bytes.length).map (wordAtIdx bytes)

/-- The four bytes of a 32-bit word, little-endian. -/
def wordToBytes (w : Nat) : List Nat :=
  [w % 256, w / 256 % 256, w / 65536 % 256, w / 16777216 % 256]

/-- The raw byte stream of a word buffer. -/
def bufferBytes (words : List Nat) : List Nat :=
  (words.map wordToBytes).flatten

/-! ## Debug messenger and report callback registration
(main.cpp lines 266-343) -/

/-- Events of dynamic entry-point handling: an attempted
`vkGetInstanceProcAddr` resolution (with its outcome), the invocation of a
resolved function, or the invocation of an unresolved (null) function
pointer. -/
inductive ProcEvent where
  | resolveAttempt (name : String) (found : Bool)
  | invoked (name : String)
  | invokedNullFunction (name : String)
deriving DecidableEq, Repr

/-- `CreateDebugMessenger` (main.cpp lines 266-293).  `resolve` models
`vkGetInstanceProcAddr` (whether a name resolves to a non-null pointer),
`driverResult` the result of the resolved creation function, and the two
Booleans whether `instance` and the output pointer are non-null.  Returns
the function's `VkResult` and the entry-point events performed. -/
def CreateDebugMessenger (resolve : String → Bool) (driverResult : VkResult)
    (instanceNonNull debugMessengerPtrNonNull : Bool) : VkResult × List ProcEvent :=
  if instanceNonNull = false ∨ debugMessengerPtrNonNull = false then
    (VkResult.VK_ERROR_UNKNOWN, [])
  else if resolve "vkCreateDebugUtilsMessengerEXT" then
    (driverResult, [ProcEvent.resolveAttempt "vkCreateDebugUtilsMessengerEXT" true,
      ProcEvent.invoked "vkCreateDebugUtilsMessengerEXT"])
  else
    (VkResult.VK_ERROR_EXTENSION_NOT_PRESENT,
      [ProcEvent.resolveAttempt "vkCreateDebugUtilsMessengerEXT" false])

/-- `DestroyDebugMessenger` (main.cpp lines 296-306).  A null instance or a
null messenger handle returns before anything else; otherwise the resolved
function pointer is called *without* a null check. -/
def DestroyDebugMessenger (resolve : String → Bool)
    (instanceNonNull debugMessengerNonNull : Bool) : List ProcEvent :=
  if instanceNonNull = false ∨ debugMessengerNonNull = false then []
  else if resolve "vkDestroyDebugUtilsMessengerEXT" then
    [ProcEvent.resolveAttempt "vkDestroyDebugUtilsMessengerEXT" true,
     ProcEvent.invoked "vkDestroyDebugUtilsMessengerEXT"]
  else
    [ProcEvent.resolveAttempt "vkDestroyDebugUtilsMessengerEXT" false,
     ProcEvent.invokedNullFunction "vkDestroyDebugUtilsMessengerEXT"]

/-- `CreateReportCallback` (main.cpp lines 309-330): same shape as
`CreateDebugMessenger` but with *no* null check on its arguments. -/
def CreateReportCallback (resolve : String → Bool) (driverResult : VkResult)
    (instanceNonNull reportCallbackPtrNonNull : Bool) : VkResult × List ProcEvent :=
  if resolve "vkCreateDebugReportCallbackEXT" then
    (driverResult, [ProcEvent.resolveAttempt "vkCreateDebugReportCallbackEXT" true,
      ProcEvent.invoked "vkCreateDebugReportCallbackEXT"])
  else
    (VkResult.VK_ERROR_EXTENSION_NOT_PRESENT,
      [ProcEvent.resolveAttempt "vkCreateDebugReportCallbackEXT" false])

/-- `DestroyReportCallback` (main.cpp lines 333-343): same shape as
`DestroyDebugMessenger`. -/
def DestroyReportCallback (resolve : String → Bool)
    (instanceNonNull reportCallbackNonNull : Bool) : List ProcEvent :=
  if instanceNonNull = false ∨ reportCallbackNonNull = false then []
  else if resolve "vkDestroyDebugReportCallbackEXT" then
    [ProcEvent.resolveAttempt "vkDestroyDebugReportCallbackEXT" true,
     ProcEvent.invoked "vkDestroyDebugReportCallbackEXT"]
  else
    [ProcEvent.resolveAttempt "vkDestroyDebugReportCallbackEXT" false,
     ProcEvent.invokedNullFunction "vkDestroyDebugReportCallbackEXT"]

/-! ## `main` (main.cpp lines 536-585) -/

/-- The top-level calls `main` makes, in order.  Calls made inside
`RunComputeShader` are embedded through `runShader`. -/
inductive HostCall where
  | verifyInstanceLayers
  | verifyInstanceExtensions
  | createHeadlessVulkanInstance
  | createDebugMessenger
  | createReportCallback
  | enumerateDevices
  | getBestComputeQueue
  | createDevice
  | runShader (c : VkCall)
  | destroyDevice
  | destroyDebugMessenger
  | destroyReportCallback
  | destroyInstance
deriving DecidableEq, Repr

/-- The external outcomes one process run of `main` observes: the
driver-enumerated layer and extension names, each privileged call's result,
the queue families of physical device 0, and the two shader files' bytes. -/
structure HostEnv where
  availableLayers : List String
  availableExtensions : List String
  createInstance : VkResult
  createDebugMessenger : VkResult
  createReportCallback : VkResult
  enumerateDevices : VkResult
  queueFamilies : List Nat
  createDevice : VkResult
  glslBytes : List Nat
  hlslBytes : List Nat
  glslOutcomes : DriverOutcomes
  hlslOutcomes : DriverOutcomes

/-- `EXIT_FAILURE`, the process exit status of `EXIT_ON_BAD_RESULT`. -/
def EXIT_FAILURE : Nat := 1

/-- `main` (main.cpp lines 536-585): exit status and the trace of top-level
calls.  `EXIT_ON_BAD_RESULT` exits the process with `EXIT_FAILURE` on the
first non-success result, so later calls are absent from the trace. -/
def main (env : HostEnv) : Nat × List HostCall :=
  if VerifyInstanceLayers requiredInstanceLayers env.availableLayers = false ∨
      VerifyInstanceExtensions requiredInstanceExtensions env.availableExtensions = false then
    (1, [HostCall.verifyInstanceLayers, HostCall.verifyInstanceExtensions])
  else if env.createInstance ≠ VkResult.VK_SUCCESS then
    (EXIT_FAILURE,
     [HostCall.verifyInstanceLayers, HostCall.verifyInstanceExtensions,
      HostCall.createHeadlessVulkanInstance])
  else if env.createDebugMessenger ≠ VkResult.VK_SUCCESS then
    (EXIT_FAILURE,
     [HostCall.verifyInstanceLayers, HostCall.verifyInstanceExtensions,
      HostCall.createHeadlessVulkanInstance, HostCall.createDebugMessenger])
  else if env.createReportCallback ≠ VkResult.VK_SUCCESS then
    (EXIT_FAILURE,
     [HostCall.verifyInstanceLayers, HostCall.verifyInstanceExtensions,
      HostCall.createHeadlessVulkanInstance, HostCall.createDebugMessenger,
      HostCall.createReportCallback])
  else if env.enumerateDevices ≠ VkResult.VK_SUCCESS then
    (EXIT_FAILURE,
     [HostCall.verifyInstanceLayers, HostCall.verifyInstanceExtensions,
      HostCall.createHeadlessVulkanInstance, HostCall.createDebugMessenger,
      HostCall.createReportCallback, HostCall.enumerateDevices])
  else
    match GetBestComputeQueue env.queueFamilies with
    | Except.error _ =>
      (EXIT_FAILURE,
       [HostCall.verifyInstanceLayers, HostCall.verifyInstanceExtensions,
        HostCall.createHeadlessVulkanInstance, HostCall.createDebugMessenger,
        HostCall.createReportCallback, HostCall.enumerateDevices,
        HostCall.getBestComputeQueue])
    | Except.ok _ =>
      if env.createDevice ≠ VkResult.VK_SUCCESS then
        (EXIT_FAILURE,
         [HostCall.verifyInstanceLayers, HostCall.verifyInstanceExtensions,
          HostCall.createHeadlessVulkanInstance, HostCall.createDebugMessenger,
          HostCall.createReportCallback, HostCall.enumerateDevices,
          HostCall.getBestComputeQueue, HostCall.createDevice])
      else if (RunComputeShader env.glslOutcomes (readFile env.glslBytes)).1 ≠
          VkResult.VK_SUCCESS then
        (EXIT_FAILURE,
         [HostCall.verifyInstanceLayers, HostCall.verifyInstanceExtensions,
          HostCall.createHeadlessVulkanInstance, HostCall.createDebugMessenger,
          HostCall.createReportCallback, HostCall.enumerateDevices,
          HostCall.getBestComputeQueue, HostCall.createDevice] ++
         (RunComputeShader env.glslOutcomes (readFile env.glslBytes)).2.map
           HostCall.runShader)
      else if (RunComputeShader env.hlslOutcomes (readFile env.hlslBytes)).1 ≠
          VkResult.VK_SUCCESS then
        (EXIT_FAILURE,
         [HostCall.verifyInstanceLayers, HostCall.verifyInstanceExtensions,
          HostCall.createHeadlessVulkanInstance, HostCall.createDebugMessenger,
          HostCall.createReportCallback, HostCall.enumerateDevices,
          HostCall.getBestComputeQueue, HostCall.createDevice] ++
         (RunComputeShader env.glslOutcomes (readFile env.glslBytes)).2.map
           HostCall.runShader ++
         (RunComputeShader env.hlslOutcomes (readFile env.hlslBytes)).2.map
           HostCall.runShader)
      else
        (0,
         [HostCall.verifyInstanceLayers, HostCall.verifyInstanceExtensions,
          HostCall.createHeadlessVulkanInstance, HostCall.createDebugMessenger,
          HostCall.createReportCallback, HostCall.enumerateDevices,
          HostCall.getBestComputeQueue, HostCall.createDevice] ++
         (RunComputeShader env.glslOutcomes (readFile env.glslBytes)).2.map
           HostCall.runShader ++
         (RunComputeShader env.hlslOutcomes (readFile env.hlslBytes)).2.map
           HostCall.runShader ++
         [HostCall.destroyDevice, HostCall.destroyDebugMessenger,
          HostCall.destroyReportCallback, HostCall.destroyInstance])

/-- The caller-side cleanup calls of `main` (main.cpp lines 577-582). -/
def isCleanupCall : HostCall → Bool
  | HostCall.destroyDevice => true
  | HostCall.destroyDebugMessenger => true
  | HostCall.destroyReportCallback => true
  | HostCall.destroyInstance => true
  | _ => false

/-- `main` reaches the two shader runs: every step before them succeeds. -/
def reachesShaderRuns (env : HostEnv) : Prop :=
  VerifyInstanceLayers requiredInstanceLayers env.availableLayers = true ∧
  VerifyInstanceExtensions requiredInstanceExtensions env.availableExtensions = true ∧
  env.createInstance = VkResult.VK_SUCCESS ∧
  env.createDebugMessenger = VkResult.VK_SUCCESS ∧
  env.createReportCallback = VkResult.VK_SUCCESS ∧
  env.enumerateDevices = VkResult.VK_SUCCESS ∧
  (∃ i, GetBestComputeQueue env.queueFamilies = Except.ok i) ∧
  env.createDevice = VkResult.VK_SUCCESS

/-- A concrete run in which the GLSL shader's module creation fails and
everything before it succeeds. -/
def failingModuleEnv : HostEnv where
  availableLayers := requiredInstanceLayers
  availableExtensions := requiredInstanceExtensions
  createInstance := VkResult.VK_SUCCESS
  createDebugMessenger := VkResult.VK_SUCCESS
  createReportCallback := VkResult.VK_SUCCESS
  enumerateDevices := VkResult.VK_SUCCESS
  queueFamilies := [VK_QUEUE_COMPUTE_BIT]
  createDevice := VkResult.VK_SUCCESS
  glslBytes := [3, 2, 35, 7]
  hlslBytes := [3, 2, 35, 7]
  glslOutcomes :=
    ⟨VkResult.VK_ERROR_OUT_OF_DEVICE_MEMORY, VkResult.VK_SUCCESS, VkResult.VK_SUCCESS,
     VkResult.VK_SUCCESS, VkResult.VK_SUCCESS, VkResult.VK_SUCCESS,
     VkResult.VK_SUCCESS, VkResult.VK_SUCCESS, VkResult.VK_SUCCESS⟩
  hlslOutcomes := allSuccess

/-- A concrete run in which the GLSL run fully succeeds and the HLSL
shader's module creation fails, everything before it succeeding. -/
def failingHlslEnv : HostEnv :=
  { failingModuleEnv with
    glslOutcomes := allSuccess
    hlslOutcomes :=
      ⟨VkResult.VK_ERROR_OUT_OF_DEVICE_MEMORY, VkResult.VK_SUCCESS, VkResult.VK_SUCCESS,
       VkResult.VK_SUCCESS, VkResult.VK_SUCCESS, VkResult.VK_SUCCESS,
       VkResult.VK_SUCCESS, VkResult.VK_SUCCESS, VkResult.VK_SUCCESS⟩ }

/-- A concrete run in which `CreateDebugMessenger` fails with
`VK_ERROR_EXTENSION_NOT_PRESENT` and everything before it succeeds. -/
def extMissingEnv : HostEnv :=
  { failingModuleEnv with
    createDebugMessenger := VkResult.VK_ERROR_EXTENSION_NOT_PRESENT }

/-! ## Theorems -/

theorem findFirstIdx_some_iff (p : Nat → Bool) (l : List Nat) (i : Nat) :
    findFirstIdx p l = some i ↔
      i < l.length ∧ p (l.getD i 0) = true ∧ ∀ j < i, p (l.getD j 0) = false := by
  induction l generalizing i with
  | nil => simp [findFirstIdx]
  | cons f rest ih =>
    by_cases hp : p f
    · simp only [findFirstIdx, hp, if_pos]
      constructor
      · rintro h
        cases h
        exact ⟨Nat.succ_pos _, by simpa using hp, by omega⟩
      · rintro ⟨_, _, hall⟩
        rcases i with _ | i
        · rfl
        · exact absurd hp (by simpa using hall 0 (Nat.succ_pos i))
    · simp only [findFirstIdx, hp, if_neg, Bool.false_eq_true, not_false_iff]
      constructor
      · intro h
        rcases Option.map_eq_some'.mp h with ⟨i', hi', rfl⟩
        rcases (ih i').mp hi' with ⟨hlen, hpi, hall⟩
        refine ⟨by simpa using Nat.succ_lt_succ hlen, by simpa using hpi, ?_⟩
        intro j hj
        rcases j with _ | j
        · simpa using hp
        · simpa using hall j (by omega)
      · rintro ⟨hlen, hpi, hall⟩
        rcases i with _ | i
        · exact absurd (by simpa using hpi) hp
        · have : findFirstIdx p rest = some i := by
            refine (ih i).mpr ⟨by simpa using hlen, by simpa using hpi, ?_⟩
            intro j hj
            simpa using hall (j + 1) (by omega)
          simp [this]

theorem findFirstIdx_none_iff (p : Nat → Bool) (l : List Nat) :
    findFirstIdx p l = none ↔ ∀ j < l.length, p (l.getD j 0) = false := by
  induction l with
  | nil => simp [findFirstIdx]
  | cons f rest ih =>
    by_cases hp : p f
    · simp only [findFirstIdx, hp, if_pos]
      constructor
      · intro h; cases h
      · intro hall
        exact absurd hp (by simpa using hall 0 (Nat.succ_pos _))
    · simp only [findFirstIdx, hp, if_neg, Bool.false_eq_true, not_false_iff,
        Option.map_eq_none']
      rw [ih]
      constructor
      · intro hall j hj
        rcases j with _ | j
        · simpa using hp
        · simpa using hall j (by simp at hj; omega)
      · intro hall j hj
        simpa using hall (j + 1) (by simp; omega)

/-- Claim C1: queue-family selection returns, in enumeration order, the index
of the first family whose masked flags (TRANSFER and SPARSE_BINDING removed)
include COMPUTE but not GRAPHICS; failing that, the index of the first family
whose masked flags include COMPUTE; failing both, the error
`VK_ERROR_INITIALIZATION_FAILED`.  Whenever selection succeeds, the selected
family's COMPUTE bit is set. -/
theorem C1_queue_selection (families : List Nat) :
    (∀ i, GetBestComputeQueue families = Except.ok i ↔
      ((i < families.length ∧ tier1Match (families.getD i 0) = true ∧
          ∀ j < i, tier1Match (families.getD j 0) = false) ∨
        ((∀ j < families.length, tier1Match (families.getD j 0) = false) ∧
          i < families.length ∧ tier2Match (families.getD i 0) = true ∧
          ∀ j < i, tier2Match (families.getD j 0) = false))) ∧
    (GetBestComputeQueue families = Except.error VkResult.VK_ERROR_INITIALIZATION_FAILED ↔
      ∀ j < families.length, tier2Match (families.getD j 0) = false) ∧
    (∀ i, GetBestComputeQueue families = Except.ok i →
      VK_QUEUE_COMPUTE_BIT &&& maskedQueueFlags (families.getD i 0) ≠ 0) := by
  have tier12 : ∀ f, tier1Match f = true → tier2Match f = true := by
    intro f hf
    unfold tier1Match at hf
    unfold tier2Match
    simp only [Bool.and_eq_true] at hf
    exact hf.2
  have okk : ∀ i, GetBestComputeQueue families = Except.ok i ↔
      ((i < families.length ∧ tier1Match (families.getD i 0) = true ∧
          ∀ j < i, tier1Match (families.getD j 0) = false) ∨
        ((∀ j < families.length, tier1Match (families.getD j 0) = false) ∧
          i < families.length ∧ tier2Match (families.getD i 0) = true ∧
          ∀ j < i, tier2Match (families.getD j 0) = false)) := by
    intro i
    unfold GetBestComputeQueue
    rcases h1 : findFirstIdx tier1Match families with _ | i1
    · rcases h2 : findFirstIdx tier2Match families with _ | i2
      · simp only [reduceCtorEq, false_iff]
        rintro (⟨hlen, hpi, _⟩ | ⟨_, hlen, hpi, _⟩)
        · exact absurd hpi (by
            simpa using (findFirstIdx_none_iff tier1Match families).mp h1 i hlen)
        · exact absurd hpi (by
            simpa using (findFirstIdx_none_iff tier2Match families).mp h2 i hlen)
      · rcases (findFirstIdx_some_iff tier2Match families i2).mp h2 with ⟨hlen2, hp2, hall2⟩
        have hnone1 := (findFirstIdx_none_iff tier1Match families).mp h1
        constructor
        · rintro h
          cases h
          exact Or.inr ⟨hnone1, hlen2, hp2, hall2⟩
        · rintro (⟨hlen, hpi, _⟩ | ⟨_, hlen, hpi, hall⟩)
          · exact absurd hpi (by simpa using hnone1 i hlen)
          · have : i2 = i := by
              by_contra hne
              rcases Nat.lt_or_ge i2 i with hlt | hge
              · exact absurd hp2 (by simpa using hall i2 hlt)
              · exact absurd hpi (by simpa using hall2 i (by omega))
            simp [this]
    · rcases (findFirstIdx_some_iff tier1Match families i1).mp h1 with ⟨hlen1, hp1, hall1⟩
      constructor
      · rintro h
        cases h
        exact Or.inl ⟨hlen1, hp1, hall1⟩
      · rintro (⟨hlen, hpi, hall⟩ | ⟨hnone, _, _, _⟩)
        · have : i1 = i := by
            by_contra hne
            rcases Nat.lt_or_ge i1 i with hlt | hge
            · exact absurd hp1 (by simpa using hall i1 hlt)
            · exact absurd hpi (by simpa using hall1 i (by omega))
          simp [this]
        · exact absurd hp1 (by simpa using hnone i1 hlen1)
  refine ⟨okk, ?_, ?_⟩
  · unfold GetBestComputeQueue
    rcases h1 : findFirstIdx tier1Match families with _ | i1
    · rcases h2 : findFirstIdx tier2Match families with _ | i2
      · simpa using (findFirstIdx_none_iff tier2Match families).mp h2
      · rcases (findFirstIdx_some_iff tier2Match families i2).mp h2 with ⟨hlen2, hp2, _⟩
        simp only [reduceCtorEq, false_iff]
        intro hall
        exact absurd hp2 (by simpa using hall i2 hlen2)
    · rcases (findFirstIdx_some_iff tier1Match families i1).mp h1 with ⟨hlen1, hp1, _⟩
      simp only [reduceCtorEq, false_iff]
      intro hall
      exact absurd (tier12 _ hp1) (by simpa using hall i1 hlen1)
  · intro i hok
    rcases (okk i).mp hok with ⟨_, hpi, _⟩ | ⟨_, _, hpi, _⟩
    · have := tier12 _ hpi
      unfold tier2Match at this
      simpa using this
    · unfold tier2Match at hpi
      simpa using hpi

/-- Witness for C1 on a concrete device: families `[GRAPHICS, COMPUTE]`
select index 1, a Tier-1 match. -/
theorem C1_queue_selection_witness :
    GetBestComputeQueue [VK_QUEUE_GRAPHICS_BIT, VK_QUEUE_COMPUTE_BIT] = Except.ok 1 := by
  exact ((C1_queue_selection [VK_QUEUE_GRAPHICS_BIT, VK_QUEUE_COMPUTE_BIT]).1 1).mpr
    (Or.inl ⟨by decide, by decide, by decide⟩)

/-- Claim C2: in filtered mode the severity-channel sink logs a message iff
its type-flags equal exactly the validation type; general and performance
types are dropped without logging; the sink always returns `VK_FALSE`. -/
theorem C2_severity_channel_filter (messageSeverity messageType : Nat) (pMessage : String) :
    ((VulkanDebugCallback true messageSeverity messageType pMessage).1 ≠ none ↔
      messageType = VK_DEBUG_UTILS_MESSAGE_TYPE_VALIDATION_BIT_EXT) ∧
    (VulkanDebugCallback true messageSeverity
        VK_DEBUG_UTILS_MESSAGE_TYPE_GENERAL_BIT_EXT pMessage).1 = none ∧
    (VulkanDebugCallback true messageSeverity
        VK_DEBUG_UTILS_MESSAGE_TYPE_PERFORMANCE_BIT_EXT pMessage).1 = none ∧
    (VulkanDebugCallback true messageSeverity messageType pMessage).2 = VK_FALSE := by
  unfold VulkanDebugCallback
  refine ⟨?_, by simp [VK_DEBUG_UTILS_MESSAGE_TYPE_GENERAL_BIT_EXT,
      VK_DEBUG_UTILS_MESSAGE_TYPE_VALIDATION_BIT_EXT],
    by simp [VK_DEBUG_UTILS_MESSAGE_TYPE_PERFORMANCE_BIT_EXT,
      VK_DEBUG_UTILS_MESSAGE_TYPE_VALIDATION_BIT_EXT], ?_⟩
  · by_cases h : messageType = VK_DEBUG_UTILS_MESSAGE_TYPE_VALIDATION_BIT_EXT <;>
      simp [h]
  · by_cases h : messageType = VK_DEBUG_UTILS_MESSAGE_TYPE_VALIDATION_BIT_EXT <;>
      simp [h]

/-- Claim C3: in filtered mode the flag-channel sink logs a message iff its
flags equal exactly the informational flag and its text contains the
substring "Validation"; the sink always returns `VK_FALSE`. -/
theorem C3_flag_channel_filter (flags : Nat) (pLayerPrefix pMessage : String) :
    ((VulkanReportCallback true flags pLayerPrefix pMessage).1 ≠ none ↔
      (flags = VK_DEBUG_REPORT_INFORMATION_BIT_EXT ∧
        messageContainsValidation pMessage = true)) ∧
    (VulkanReportCallback true flags pLayerPrefix pMessage).2 = VK_FALSE := by
  unfold VulkanReportCallback
  constructor
  · by_cases h1 : flags = VK_DEBUG_REPORT_INFORMATION_BIT_EXT <;>
      by_cases h2 : messageContainsValidation pMessage = true <;>
      simp_all
  · by_cases h1 : flags = VK_DEBUG_REPORT_INFORMATION_BIT_EXT <;>
      by_cases h2 : messageContainsValidation pMessage = true <;>
      simp_all

theorem nameFoundIn_iff (name : String) (available : List String) :
    nameFoundIn name available = true ↔ name ∈ available := by
  induction available with
  | nil => simp [nameFoundIn]
  | cons a rest ih =>
    constructor
    · intro hf
      unfold nameFoundIn at hf
      by_cases h : a = name
      · simp [h]
      · rw [if_neg h] at hf
        exact List.mem_cons_of_mem a (ih.mp hf)
    · intro hm
      unfold nameFoundIn
      by_cases h : a = name
      · simp [h]
      · rcases List.mem_cons.mp hm with h1 | h1
        · exact absurd h1.symm h
        · simp [h, ih.mpr h1]

theorem allNamesFound_iff (available requested : List String) :
    allNamesFound available requested = true ↔ ∀ n ∈ requested, n ∈ available := by
  induction requested with
  | nil => simp [allNamesFound]
  | cons r rest ih =>
    by_cases h : nameFoundIn r available = true
    · have hr := (nameFoundIn_iff r available).mp h
      simp [allNamesFound, h, ih, hr]
    · constructor
      · intro hf
        exfalso
        unfold allNamesFound at hf
        rw [if_neg h] at hf
        exact absurd hf (by simp)
      · intro hall
        exact absurd ((nameFoundIn_iff r available).mpr (hall r (by simp))) h

/-- Claim C4: verification returns true iff every requested name has an
exact match in the available list; the result is independent of the order of
either list; an empty requested set trivially passes. -/
theorem C4_capability_verification (requested available req2 av2 : List String)
    (hreq : requested.Perm req2) (hav : available.Perm av2) :
    (VerifyInstanceLayers requested available = true ↔
      ∀ n ∈ requested, n ∈ available) ∧
    (VerifyInstanceExtensions requested available = true ↔
      ∀ n ∈ requested, n ∈ available) ∧
    VerifyInstanceLayers req2 av2 = VerifyInstanceLayers requested available ∧
    VerifyInstanceExtensions req2 av2 = VerifyInstanceExtensions requested available ∧
    VerifyInstanceLayers [] available = true ∧
    VerifyInstanceExtensions [] available = true := by
  have key : ∀ rq avl : List String,
      VerifyInstanceLayers rq avl = true ↔ ∀ n ∈ rq, n ∈ avl := by
    intro rq avl
    unfold VerifyInstanceLayers
    rcases rq with _ | ⟨r, rest⟩
    · simp
    · simp only [List.length_cons, if_neg (by simp : ¬ (r :: rest).length = 0)]
      exact allNamesFound_iff avl (r :: rest)
  have keyE : ∀ rq avl : List String,
      VerifyInstanceExtensions rq avl = true ↔ ∀ n ∈ rq, n ∈ avl := by
    intro rq avl
    unfold VerifyInstanceExtensions
    rcases rq with _ | ⟨r, rest⟩
    · simp
    · simp only [List.length_cons, if_neg (by simp : ¬ (r :: rest).length = 0)]
      exact allNamesFound_iff avl (r :: rest)
  have hmem : ∀ n, (n ∈ req2 ↔ n ∈ requested) := fun n => (hreq.mem_iff).symm
  have hmem2 : ∀ n, (n ∈ av2 ↔ n ∈ available) := fun n => (hav.mem_iff).symm
  refine ⟨key requested available, keyE requested available, ?_, ?_, by
    simp [VerifyInstanceLayers], by simp [VerifyInstanceExtensions]⟩
  · have h1 := key req2 av2
    have h2 := key requested available
    rcases hb : VerifyInstanceLayers requested available with _ | _
    · rcases hb2 : VerifyInstanceLayers req2 av2 with _ | _
      · rfl
      · exfalso
        rw [hb2] at h1
        rw [hb] at h2
        have := h2.mpr (fun n hn => (hmem2 n).mp (h1.mp rfl n ((hmem n).mpr hn)))
        exact absurd this (by simp)
    · rcases hb2 : VerifyInstanceLayers req2 av2 with _ | _
      · exfalso
        rw [hb2] at h1
        rw [hb] at h2
        have := h1.mpr (fun n hn => (hmem2 n).mpr (h2.mp rfl n ((hmem n).mp hn)))
        exact absurd this (by simp)
      · rfl
  · have h1 := keyE req2 av2
    have h2 := keyE requested available
    rcases hb : VerifyInstanceExtensions requested available with _ | _
    · rcases hb2 : VerifyInstanceExtensions req2 av2 with _ | _
      · rfl
      · exfalso
        rw [hb2] at h1
        rw [hb] at h2
        have := h2.mpr (fun n hn => (hmem2 n).mp (h1.mp rfl n ((hmem n).mpr hn)))
        exact absurd this (by simp)
    · rcases hb2 : VerifyInstanceExtensions req2 av2 with _ | _
      · exfalso
        rw [hb2] at h1
        rw [hb] at h2
        have := h1.mpr (fun n hn => (hmem2 n).mpr (h2.mp rfl n ((hmem n).mp hn)))
        exact absurd this (by simp)
      · rfl

/-- Witness for C4: the program's own required layer list against a
reordered available list. -/
theorem C4_capability_verification_witness :
    VerifyInstanceLayers requiredInstanceLayers
      ["VK_EXT_debug_report", "VK_LAYER_KHRONOS_validation"] = true := by
  exact (C4_capability_verification requiredInstanceLayers
      ["VK_EXT_debug_report", "VK_LAYER_KHRONOS_validation"]
      requiredInstanceLayers
      ["VK_LAYER_KHRONOS_validation", "VK_EXT_debug_report"]
      (by decide) (by decide)).1.mpr (by decide)

set_option maxHeartbeats 2000000 in
theorem RunComputeShader_result_of_firstFailure (o : DriverOutcomes) (code : List Nat)
    (e : VkResult) (hf : firstFailure o = some e) :
    (RunComputeShader o code).1 = e ∧
    (RunComputeShader o code).2.filter isTeardownCall = [] ∧
    e ≠ VkResult.VK_SUCCESS := by
  unfold firstFailure at hf
  unfold RunComputeShader
  split_ifs at hf ⊢ with h1 h2 h3 h4 h5 h6 h7 h8 h9 <;>
    first
      | (obtain rfl := (Option.some.inj hf).symm
         exact ⟨rfl, by simp [isTeardownCall], by assumption⟩)
      | (exact Option.noConfusion hf)

set_option maxHeartbeats 2000000 in
theorem RunComputeShader_result_of_success (o : DriverOutcomes) (code : List Nat)
    (h : firstFailure o = none) :
    (RunComputeShader o code).1 = VkResult.VK_SUCCESS := by
  unfold firstFailure at h
  unfold RunComputeShader
  split_ifs at h ⊢ with h1 h2 h3 h4 h5 h6 h7 h8 h9 <;>
    first
      | (exact Option.noConfusion h)
      | (simpa using h9)

theorem filter_isCleanupCall_map_runShader (tr : List VkCall) :
    (tr.map HostCall.runShader).filter isCleanupCall = [] := by
  induction tr with
  | nil => rfl
  | cons c rest ih => simp [isCleanupCall, ih]

/-- Claim C5 (amended): for either of main's two Build/Dispatch runs — the
GLSL run, or the HLSL run after the GLSL run succeeded — any failing step of
`RunComputeShader` aborts the run immediately with that step's error code,
and no destroy or free call is made on the resources created before it; but
the caller's cleanup does *not* run on that failure path —
`EXIT_ON_BAD_RESULT` exits the process with status 1 before any of main's
teardown calls.  `o` and `bytes` are the failing run's driver outcomes and
file bytes; `hwhich` says which of the two runs it is. -/
theorem C5_failure_aborts_without_cleanup (env : HostEnv) (o : DriverOutcomes)
    (bytes : List Nat) (e : VkResult)
    (hf : firstFailure o = some e)
    (hr : reachesShaderRuns env)
    (hwhich : (env.glslOutcomes = o ∧ env.glslBytes = bytes) ∨
      (firstFailure env.glslOutcomes = none ∧
        env.hlslOutcomes = o ∧ env.hlslBytes = bytes)) :
    (RunComputeShader o (readFile bytes)).1 = e ∧
    (RunComputeShader o (readFile bytes)).2.filter isTeardownCall = [] ∧
    (main env).1 = 1 ∧
    (main env).2.filter isCleanupCall = [] := by
  obtain ⟨hv1, hv2, hci, hcm, hcr, hed, ⟨qi, hq⟩, hcd⟩ := hr
  obtain ⟨hres, htd, hne⟩ :=
    RunComputeShader_result_of_firstFailure o (readFile bytes) e hf
  refine ⟨hres, htd, ?_⟩
  rcases hwhich with ⟨ho, hb⟩ | ⟨hgl, ho, hb⟩
  · have hmain : main env = (EXIT_FAILURE,
        [HostCall.verifyInstanceLayers, HostCall.verifyInstanceExtensions,
         HostCall.createHeadlessVulkanInstance, HostCall.createDebugMessenger,
         HostCall.createReportCallback, HostCall.enumerateDevices,
         HostCall.getBestComputeQueue, HostCall.createDevice] ++
        (RunComputeShader o (readFile bytes)).2.map HostCall.runShader) := by
      unfold main
      rw [hv1, hv2, hci, hcm, hcr, hed, hcd, hq, ho, hb, hres]
      simp [hne]
    rw [hmain]
    refine ⟨rfl, ?_⟩
    simp only [List.filter_append]
    rw [filter_isCleanupCall_map_runShader]
    decide
  · have hsucc := RunComputeShader_result_of_success env.glslOutcomes
      (readFile env.glslBytes) hgl
    have hmain : main env = (EXIT_FAILURE,
        [HostCall.verifyInstanceLayers, HostCall.verifyInstanceExtensions,
         HostCall.createHeadlessVulkanInstance, HostCall.createDebugMessenger,
         HostCall.createReportCallback, HostCall.enumerateDevices,
         HostCall.getBestComputeQueue, HostCall.createDevice] ++
        (RunComputeShader env.glslOutcomes (readFile env.glslBytes)).2.map
          HostCall.runShader ++
        (RunComputeShader o (readFile bytes)).2.map HostCall.runShader) := by
      unfold main
      rw [hv1, hv2, hci, hcm, hcr, hed, hcd, hq, hsucc, ho, hb, hres]
      simp [hne]
    rw [hmain]
    refine ⟨rfl, ?_⟩
    simp only [List.filter_append]
    rw [filter_isCleanupCall_map_runShader, filter_isCleanupCall_map_runShader]
    decide

/-- Witness for C5: the concrete failing runs `failingModuleEnv` (the GLSL
run fails) and `failingHlslEnv` (the GLSL run succeeds, the HLSL run
fails). -/
theorem C5_failure_aborts_without_cleanup_witness :
    ((main failingModuleEnv).1 = 1 ∧
      (main failingModuleEnv).2.filter isCleanupCall = []) ∧
    ((main failingHlslEnv).1 = 1 ∧
      (main failingHlslEnv).2.filter isCleanupCall = []) := by
  have h1 := C5_failure_aborts_without_cleanup failingModuleEnv
    failingModuleEnv.glslOutcomes failingModuleEnv.glslBytes
    VkResult.VK_ERROR_OUT_OF_DEVICE_MEMORY (by decide)
    ⟨by decide, by decide, rfl, rfl, rfl, rfl, ⟨0, rfl⟩, rfl⟩
    (Or.inl ⟨rfl, rfl⟩)
  have h2 := C5_failure_aborts_without_cleanup failingHlslEnv
    failingHlslEnv.hlslOutcomes failingHlslEnv.hlslBytes
    VkResult.VK_ERROR_OUT_OF_DEVICE_MEMORY (by decide)
    ⟨by decide, by decide, rfl, rfl, rfl, rfl, ⟨0, rfl⟩, rfl⟩
    (Or.inr ⟨by decide, rfl, rfl⟩)
  exact ⟨⟨h1.2.2.1, h1.2.2.2⟩, ⟨h2.2.2.1, h2.2.2.2⟩⟩

/-- Counterexample to claim C5 as stated: in the concrete failing run
`failingModuleEnv`, module creation fails, yet none of the caller's cleanup
calls (`vkDestroyDevice`, `DestroyDebugMessenger`, `DestroyReportCallback`,
`vkDestroyInstance`) appears in the process trace — the caller's cleanup
does not run on the failure path. -/
theorem C5_counterexample :
    (RunComputeShader failingModuleEnv.glslOutcomes
      (readFile failingModuleEnv.glslBytes)).1 ≠ VkResult.VK_SUCCESS ∧
    HostCall.destroyDevice ∉ (main failingModuleEnv).2 ∧
    HostCall.destroyDebugMessenger ∉ (main failingModuleEnv).2 ∧
    HostCall.destroyReportCallback ∉ (main failingModuleEnv).2 ∧
    HostCall.destroyInstance ∉ (main failingModuleEnv).2 := by
  decide

set_option maxHeartbeats 2000000 in
/-- Claim C6: whenever the teardown block of `RunComputeShader` executes (no
step failed, so nothing cuts the run short), the teardown calls are exactly
the sequence free command buffer, destroy command pool, destroy pipeline,
destroy pipeline layout, destroy shader module — the reverse of the creation
order of the resources created in the run — as the final calls of the run,
and the run's result is `VK_SUCCESS` (no teardown call fails). -/
theorem C6_teardown_order (o : DriverOutcomes) (code : List Nat)
    (h : firstFailure o = none) :
    (RunComputeShader o code).2.filter isTeardownCall = teardownSeq ∧
    List.IsSuffix teardownSeq (RunComputeShader o code).2 ∧
    (RunComputeShader o code).2.filterMap releasedResource =
      ((RunComputeShader o code).2.filterMap createdResource).reverse ∧
    (RunComputeShader o code).1 = VkResult.VK_SUCCESS := by
  unfold firstFailure at h
  unfold RunComputeShader
  split_ifs at h ⊢ with h1 h2 h3 h4 h5 h6 h7 h8 h9 <;>
    first
      | (exact Option.noConfusion h)
      | (exact ⟨by simp [isTeardownCall, teardownSeq], List.suffix_append _ _,
          by simp [releasedResource, createdResource], by simpa using h9⟩)

/-- Witness for C6: the all-success run on a one-word binary. -/
theorem C6_teardown_order_witness :
    (RunComputeShader allSuccess [1]).2.filter isTeardownCall = teardownSeq :=
  (C6_teardown_order allSuccess [1] (by decide)).1

set_option maxHeartbeats 2000000 in
/-- Claim C7: whenever command recording is reached (the steps before
`vkCmdBindPipeline`/`vkCmdDispatch` all succeeded, so the recording
statements execute), the run records exactly one pipeline bind and exactly
one dispatch, the bind immediately preceding the dispatch, with workgroup
counts `shader_local_size_x = 512` on X and 1 on Y and Z, independent of the
input binary. -/
theorem C7_dispatch_recording (o : DriverOutcomes) (code : List Nat)
    (h : o.createShaderModule = VkResult.VK_SUCCESS ∧
      o.createPipelineLayout = VkResult.VK_SUCCESS ∧
      o.createComputePipelines = VkResult.VK_SUCCESS ∧
      o.createCommandPool = VkResult.VK_SUCCESS ∧
      o.allocateCommandBuffers = VkResult.VK_SUCCESS ∧
      o.beginCommandBuffer = VkResult.VK_SUCCESS) :
    (RunComputeShader o code).2.filter isDispatchCall =
      [VkCall.cmdDispatch shader_local_size_x 1 1] ∧
    (RunComputeShader o code).2.filter isBindCall = [VkCall.cmdBindPipeline] ∧
    shader_local_size_x = 512 ∧
    (∃ pre post, (RunComputeShader o code).2 =
      pre ++ [VkCall.cmdBindPipeline, VkCall.cmdDispatch shader_local_size_x 1 1] ++ post) := by
  obtain ⟨h1, h2, h3, h4, h5, h6⟩ := h
  have hs : ¬ (VkResult.VK_SUCCESS ≠ VkResult.VK_SUCCESS) := fun hc => hc rfl
  unfold RunComputeShader
  rw [h1, h2, h3, h4, h5, h6,
    if_neg hs, if_neg hs, if_neg hs, if_neg hs, if_neg hs, if_neg hs]
  split_ifs with h7 h8 h9
  · exact ⟨by simp [isDispatchCall], by simp [isBindCall], rfl,
      [VkCall.createShaderModule code.length code, VkCall.createPipelineLayout,
       VkCall.createComputePipelines, VkCall.createCommandPool,
       VkCall.allocateCommandBuffers, VkCall.beginCommandBuffer],
      [VkCall.endCommandBuffer], by simp⟩
  · exact ⟨by simp [isDispatchCall], by simp [isBindCall], rfl,
      [VkCall.createShaderModule code.length code, VkCall.createPipelineLayout,
       VkCall.createComputePipelines, VkCall.createCommandPool,
       VkCall.allocateCommandBuffers, VkCall.beginCommandBuffer],
      [VkCall.endCommandBuffer, VkCall.getDeviceQueue, VkCall.queueSubmit], by simp⟩
  · exact ⟨by simp [isDispatchCall], by simp [isBindCall], rfl,
      [VkCall.createShaderModule code.length code, VkCall.createPipelineLayout,
       VkCall.createComputePipelines, VkCall.createCommandPool,
       VkCall.allocateCommandBuffers, VkCall.beginCommandBuffer],
      [VkCall.endCommandBuffer, VkCall.getDeviceQueue, VkCall.queueSubmit,
       VkCall.queueWaitIdle], by simp⟩
  · exact ⟨by simp [isDispatchCall], by simp [isBindCall], rfl,
      [VkCall.createShaderModule code.length code, VkCall.createPipelineLayout,
       VkCall.createComputePipelines, VkCall.createCommandPool,
       VkCall.allocateCommandBuffers, VkCall.beginCommandBuffer],
      [VkCall.endCommandBuffer, VkCall.getDeviceQueue, VkCall.queueSubmit,
       VkCall.queueWaitIdle, VkCall.freeCommandBuffers, VkCall.destroyCommandPool,
       VkCall.destroyPipeline, VkCall.destroyPipelineLayout,
       VkCall.destroyShaderModule], by simp⟩

/-- Witness for C7: the all-success run on a one-word binary. -/
theorem C7_dispatch_recording_witness :
    (RunComputeShader allSuccess [1]).2.filter isDispatchCall =
      [VkCall.cmdDispatch shader_local_size_x 1 1] :=
  (C7_dispatch_recording allSuccess [1] ⟨rfl, rfl, rfl, rfl, rfl, rfl⟩).1

theorem byteAtIdx_lt (bytes : List Nat) (hb : ∀ b ∈ bytes, b < 256) (j : Nat) :
    byteAtIdx bytes j < 256 := by
  unfold byteAtIdx
  by_cases h : j < bytes.length
  · rw [List.getD_eq_getElem bytes 0 h]
    exact hb _ (List.getElem_mem h)
  · rw [List.getD_eq_default]
    · omega
    · omega

theorem wordToBytes_wordAtIdx (bytes : List Nat) (hb : ∀ b ∈ bytes, b < 256) (i : Nat) :
    wordToBytes (wordAtIdx bytes i) =
      [byteAtIdx bytes (4 * i), byteAtIdx bytes (4 * i + 1),
       byteAtIdx bytes (4 * i + 2), byteAtIdx bytes (4 * i + 3)] := by
  have ha := byteAtIdx_lt bytes hb (4 * i)
  have hbb := byteAtIdx_lt bytes hb (4 * i + 1)
  have hc := byteAtIdx_lt bytes hb (4 * i + 2)
  have hd := byteAtIdx_lt bytes hb (4 * i + 3)
  unfold wordToBytes wordAtIdx
  refine List.cons_eq_cons.mpr ⟨?_, List.cons_eq_cons.mpr ⟨?_,
    List.cons_eq_cons.mpr ⟨?_, List.cons_eq_cons.mpr ⟨?_, rfl⟩⟩⟩⟩ <;> omega

theorem flatten_map_quadruple (f : Nat → Nat) (n : Nat) :
    ((List.range n).map (fun i => [f (4 * i), f (4 * i + 1),
      f (4 * i + 2), f (4 * i + 3)])).flatten = (List.range (4 * n)).map f := by
  induction n with
  | zero => simp
  | succ m ih =>
    have h4 : 4 * (m + 1) = (4 * m + 1) + 1 + 1 + 1 := by ring
    rw [List.range_succ, List.map_append, List.flatten_append, ih, h4,
      List.range_succ, List.range_succ, List.range_succ]
    simp only [List.map_append, List.map_cons, List.map_nil, List.flatten_cons,
      List.flatten_nil, List.append_nil, List.append_assoc]
    have e1 : 4 * m + 1 + 1 = 4 * m + 2 := by ring
    have e2 : 4 * m + 1 + 1 + 1 = 4 * m + 3 := by ring
    rw [e1, e2, List.range_succ]
    simp

theorem bufferBytes_readFile (bytes : List Nat) (hb : ∀ b ∈ bytes, b < 256) :
    bufferBytes (readFile bytes) =
      (List.range (4 * bytes.length)).map (byteAtIdx bytes) := by
  unfold bufferBytes readFile
  rw [List.map_map]
  have hcomp : (wordToBytes ∘ wordAtIdx bytes) = fun i =>
      [byteAtIdx bytes (4 * i), byteAtIdx bytes (4 * i + 1),
       byteAtIdx bytes (4 * i + 2), byteAtIdx bytes (4 * i + 3)] := by
    funext i
    exact wordToBytes_wordAtIdx bytes hb i
  rw [hcomp, flatten_map_quadruple]

theorem map_byteAtIdx_range (bytes : List Nat) :
    (List.range bytes.length).map (byteAtIdx bytes) = bytes := by
  apply List.ext_getElem
  · simp
  · intro i h1 h2
    simp only [List.getElem_map, List.getElem_range]
    rw [byteAtIdx, List.getD_eq_getElem bytes 0 h2]

/-- Counterexample to claim C8 as stated: for the 4-byte file `[1, 2, 3, 4]`
the returned buffer does not have `(4 + 3) / 4 = 1` word — it has 4 words,
one per byte of the file. -/
theorem C8_counterexample :
    ¬ ((readFile [1, 2, 3, 4]).length = (4 + 3) / 4) ∧
    (readFile [1, 2, 3, 4]).length = 4 := by
  decide

set_option maxHeartbeats 1000000 in
/-- Claim C8 (amended): for a file of `N` bytes that opens successfully,
`readFile` returns a buffer of `N` (not `N/4`) 4-byte words — the vector is
sized with the byte count as its element count — whose first `N` bytes are
exactly the file's `N` bytes and whose remaining `3N` bytes are zero; module
creation receives this blob with a declared code size of `N` bytes
(`codeSize = shaderCode.size()`). -/
theorem C8_readFile_buffer (bytes : List Nat) (o : DriverOutcomes)
    (hb : ∀ b ∈ bytes, b < 256) :
    (readFile bytes).length = bytes.length ∧
    (bufferBytes (readFile bytes)).length = 4 * bytes.length ∧
    (bufferBytes (readFile bytes)).take bytes.length = bytes ∧
    (∀ j, bytes.length ≤ j → (bufferBytes (readFile bytes)).getD j 0 = 0) ∧
    (∃ rest, (RunComputeShader o (readFile bytes)).2 =
      VkCall.createShaderModule bytes.length (readFile bytes) :: rest) := by
  have hlen : (readFile bytes).length = bytes.length := by
    unfold readFile
    simp
  have hbuf := bufferBytes_readFile bytes hb
  refine ⟨hlen, by rw [hbuf]; simp, ?_, ?_, ?_⟩
  · rw [hbuf]
    have hmin : bytes.length = min bytes.length (4 * bytes.length) := by omega
    rw [← List.map_take, List.take_range, ← hmin, map_byteAtIdx_range]
  · intro j hj
    rw [hbuf]
    by_cases hlt : j < 4 * bytes.length
    · rw [List.getD_eq_getElem _ 0 (by simpa using hlt)]
      simp only [List.getElem_map, List.getElem_range]
      rw [byteAtIdx, List.getD_eq_default]
      omega
    · rw [List.getD_eq_default]
      simpa using hlt
  · unfold RunComputeShader
    rw [hlen]
    split_ifs <;> exact ⟨_, rfl⟩

/-- Witness for C8 on the 4-byte file `[1, 2, 3, 4]`. -/
theorem C8_readFile_buffer_witness :
    (readFile [1, 2, 3, 4]).length = 4 ∧
    (bufferBytes (readFile [1, 2, 3, 4])).take 4 = [1, 2, 3, 4] := by
  have h := C8_readFile_buffer [1, 2, 3, 4] allSuccess (by decide)
  exact ⟨h.1, h.2.2.1⟩

/-- Counterexample to claim C9 as stated: with a non-null instance and a
non-null messenger handle but an unresolvable destroy entry point,
`DestroyDebugMessenger` is not a silent no-op with no call made — it invokes
the unresolved (null) function pointer. -/
theorem C9_counterexample :
    DestroyDebugMessenger (fun _ => false) true true ≠ [] ∧
    ProcEvent.invokedNullFunction "vkDestroyDebugUtilsMessengerEXT" ∈
      DestroyDebugMessenger (fun _ => false) true true := by
  decide

/-- Claim C9 (amended): at sink registration, failure to resolve either
creation entry point yields `VK_ERROR_EXTENSION_NOT_PRESENT`, on which
`main` terminates the process (status 1, no later step runs).  At teardown,
a null instance or a null sink handle is a silent no-op guarded by a null
check, with no resolution and no call made; but absence of the destroy
entry point itself is *not* guarded — with non-null arguments the
unresolved (null) function pointer is invoked. -/
theorem C9_entry_point_policy (resolve : String → Bool) (dr : VkResult) (env : HostEnv)
    (hc1 : resolve "vkCreateDebugUtilsMessengerEXT" = false)
    (hc2 : resolve "vkCreateDebugReportCallbackEXT" = false)
    (hd1 : resolve "vkDestroyDebugUtilsMessengerEXT" = false)
    (hd2 : resolve "vkDestroyDebugReportCallbackEXT" = false)
    (henv : VerifyInstanceLayers requiredInstanceLayers env.availableLayers = true ∧
      VerifyInstanceExtensions requiredInstanceExtensions env.availableExtensions = true ∧
      env.createInstance = VkResult.VK_SUCCESS ∧
      env.createDebugMessenger = VkResult.VK_ERROR_EXTENSION_NOT_PRESENT) :
    (CreateDebugMessenger resolve dr true true).1 =
      VkResult.VK_ERROR_EXTENSION_NOT_PRESENT ∧
    (CreateReportCallback resolve dr true true).1 =
      VkResult.VK_ERROR_EXTENSION_NOT_PRESENT ∧
    ((main env).1 = 1 ∧ HostCall.enumerateDevices ∉ (main env).2) ∧
    (∀ r : String → Bool, ∀ b : Bool,
      DestroyDebugMessenger r false b = [] ∧
      DestroyDebugMessenger r b false = [] ∧
      DestroyReportCallback r false b = [] ∧
      DestroyReportCallback r b false = []) ∧
    ProcEvent.invokedNullFunction "vkDestroyDebugUtilsMessengerEXT" ∈
      DestroyDebugMessenger resolve true true ∧
    ProcEvent.invokedNullFunction "vkDestroyDebugReportCallbackEXT" ∈
      DestroyReportCallback resolve true true := by
  obtain ⟨hv1, hv2, hci, hcm⟩ := henv
  refine ⟨?_, ?_, ⟨?_, ?_⟩, ?_, ?_, ?_⟩
  · simp [CreateDebugMessenger, hc1]
  · simp [CreateReportCallback, hc2]
  · unfold main
    rw [hv1, hv2, hci, hcm]
    simp [EXIT_FAILURE]
  · unfold main
    rw [hv1, hv2, hci, hcm]
    simp
  · intro r b
    rcases b with _ | _ <;>
      exact ⟨by simp [DestroyDebugMessenger], by simp [DestroyDebugMessenger],
        by simp [DestroyReportCallback], by simp [DestroyReportCallback]⟩
  · simp [DestroyDebugMessenger, hd1]
  · simp [DestroyReportCallback, hd2]

/-- Witness for C9: an entry-point table that resolves nothing, with the
concrete run `extMissingEnv`. -/
theorem C9_entry_point_policy_witness :
    (CreateDebugMessenger (fun _ => false) VkResult.VK_SUCCESS true true).1 =
      VkResult.VK_ERROR_EXTENSION_NOT_PRESENT ∧
    (main extMissingEnv).1 = 1 := by
  have h := C9_entry_point_policy (fun _ => false) VkResult.VK_SUCCESS extMissingEnv
    rfl rfl rfl rfl ⟨by decide, by decide, rfl, rfl⟩
  exact ⟨h.1, h.2.2.1.1⟩

/-- Claim C10: `CreateDebugMessenger` with a null instance or a null output
pointer returns `VK_ERROR_UNKNOWN` without resolving or invoking any entry
point (empty event trace, no sink registered), whereas `CreateReportCallback`
performs no null-argument check: for *all* argument values — including the
same null ones — it attempts resolution, and invokes the creation entry
point whenever resolution succeeds. -/
theorem C10_creation_null_check_asymmetry (resolve : String → Bool) (dr : VkResult)
    (b : Bool) :
    CreateDebugMessenger resolve dr false b = (VkResult.VK_ERROR_UNKNOWN, []) ∧
    CreateDebugMessenger resolve dr b false = (VkResult.VK_ERROR_UNKNOWN, []) ∧
    (∀ instNonNull ptrNonNull : Bool,
      (CreateReportCallback resolve dr instNonNull ptrNonNull).2 =
        (if resolve "vkCreateDebugReportCallbackEXT" then
          [ProcEvent.resolveAttempt "vkCreateDebugReportCallbackEXT" true,
           ProcEvent.invoked "vkCreateDebugReportCallbackEXT"]
         else
          [ProcEvent.resolveAttempt "vkCreateDebugReportCallbackEXT" false]) ∧
      (CreateReportCallback resolve dr instNonNull ptrNonNull).2 ≠ []) := by
  refine ⟨?_, ?_, ?_⟩
  · simp [CreateDebugMessenger]
  · rcases b with _ | _ <;> simp [CreateDebugMessenger]
  · intro instNonNull ptrNonNull
    unfold CreateReportCallback
    by_cases hr : resolve "vkCreateDebugReportCallbackEXT" <;> simp [hr]

/-- Witness for C2: a validation-typed message is logged, at severity
`INFO`. -/
theorem C2_severity_channel_filter_witness :
    (VulkanDebugCallback true VK_DEBUG_UTILS_MESSAGE_SEVERITY_INFO_BIT_EXT
      VK_DEBUG_UTILS_MESSAGE_TYPE_VALIDATION_BIT_EXT "hello from shader").1 ≠ none :=
  (C2_severity_channel_filter VK_DEBUG_UTILS_MESSAGE_SEVERITY_INFO_BIT_EXT
    VK_DEBUG_UTILS_MESSAGE_TYPE_VALIDATION_BIT_EXT "hello from shader").1.mpr rfl

/-- Witness for C3: an informational message whose text contains
"Validation" is logged. -/
theorem C3_flag_channel_filter_witness :
    (VulkanReportCallback true VK_DEBUG_REPORT_INFORMATION_BIT_EXT "layer"
      "Validation note").1 ≠ none :=
  (C3_flag_channel_filter VK_DEBUG_REPORT_INFORMATION_BIT_EXT "layer"
    "Validation note").1.mpr ⟨rfl, by decide⟩

/-- Witness for C10: a null instance with an everything-resolving table still
returns `VK_ERROR_UNKNOWN` from `CreateDebugMessenger` with no events. -/
theorem C10_creation_null_check_asymmetry_witness :
    CreateDebugMessenger (fun _ => true) VkResult.VK_SUCCESS false true =
      (VkResult.VK_ERROR_UNKNOWN, []) :=
  (C10_creation_null_check_asymmetry (fun _ => true) VkResult.VK_SUCCESS true).1

end VulkanPrintf
